import Mathlib

/-!
Verification of the PriceDrop dual-search server (src/server.js).

Shallow embedding conventions:
* JavaScript numbers are modelled as `ℚ` (the arithmetic in the core is
  `+ - * `, comparison, `Math.floor` and `Math.round`, all exact on the
  rationals; `Math.floor` is `Int.floor`, `Math.round` is Mathlib's `round`,
  which agrees with JS `Math.round` on all rationals including negative
  half-integers).
* A price field that may be `null`/`undefined`/`NaN` after the JSON coercion
  in `callGeminiWithWebSearch` is `Option ℚ` (`none` = the unknown sentinel).
* Each call to `Math.random()` is modelled by an explicit parameter
  `r : ℚ` with `0 ≤ r < 1` supplied at the call site, in source order.
* JavaScript string truthiness for optional strings (`undefined`/`null`/`""`
  are falsy) is `truthyStr`.
* The external Gemini invocation is modelled by its outcome: `some offer`
  for a successful call whose JSON was extracted, `none` for any failure
  (timeout, non-2xx, missing or unparseable JSON); the `catch` blocks in
  `performBroadSearchWithGemini` / `performPartnerSearchWithGemini` are the
  `none` branches of the corresponding Lean functions.
-/

namespace PriceDrop

/-- Truthiness of an optional string in JavaScript: `undefined`, `null` and
the empty string are falsy, every other string truthy. -/
def truthyStr : Option String → Bool
  | none => false
  | some s => !s.isEmpty

/-- Containment of `pat` as a contiguous sublist, modelling JS
`String.prototype.includes` on the character lists. -/
def containsSubList (pat : List Char) : List Char → Bool
  | [] => pat.isEmpty
  | c :: cs => pat.isPrefixOf (c :: cs) || containsSubList pat cs

/-- JS `s.includes(pat)`. -/
def containsSub (s pat : String) : Bool :=
  containsSubList pat.toList s.toList

/-- Uppercase hexadecimal digit, as produced by `encodeURIComponent`. -/
def hexDigit (n : Nat) : Char :=
  if n < 10 then Char.ofNat (48 + n) else Char.ofNat (55 + n)

/-- Two-digit uppercase hex rendering of a byte value. -/
def byteToHexStr (b : Nat) : String :=
  String.mk [hexDigit (b / 16 % 16), hexDigit (b % 16)]

/-- UTF-8 byte sequence of a character (byte values as `Nat`). -/
def utf8Bytes (c : Char) : List Nat :=
  let n := c.toNat
  if n < 128 then [n]
  else if n < 2048 then [192 + n / 64, 128 + n % 64]
  else if n < 65536 then [224 + n / 4096, 128 + n / 64 % 64, 128 + n % 64]
  else [240 + n / 262144, 128 + n / 4096 % 64, 128 + n / 64 % 64, 128 + n % 64]

/-- Characters left unescaped by JS `encodeURIComponent`:
`A-Z a-z 0-9 - _ . ! ~ * ' ( )`. -/
def isUriUnreserved (c : Char) : Bool :=
  c.isAlphanum || c == Char.ofNat 45 || c == Char.ofNat 95 || c == Char.ofNat 46 ||
  c == Char.ofNat 33 || c == Char.ofNat 126 || c == Char.ofNat 42 ||
  c == Char.ofNat 39 || c == Char.ofNat 40 || c == Char.ofNat 41

/-- JS `encodeURIComponent`: percent-encodes the UTF-8 bytes of every
reserved character. -/
def encodeURIComponent (s : String) : String :=
  String.join (s.toList.map (fun c =>
    if isUriUnreserved c then String.singleton c
    else String.join ((utf8Bytes c).map (fun b => "%" ++ byteToHexStr b))))

/-- JS `s.toLowerCase()` on the ASCII site names used here, as a character
map (structurally recursive, so it evaluates inside proofs). -/
def jsToLower (s : String) : String :=
  String.mk (s.toList.map Char.toLower)

/-- JS global replacement of every dash by a slash (the date reformatting in
`generateDirectLink`), as a character map. -/
def dashesToSlashes (s : String) : String :=
  String.mk (s.toList.map (fun c => if c == Char.ofNat 45 then Char.ofNat 47 else c))

/-- JS `s.replace(/[^a-z]/g, '')`: keep only lowercase ASCII letters. -/
def onlyLowerAlpha (s : String) : String :=
  String.mk (s.toList.filter (fun c => 97 ≤ c.toNat && c.toNat ≤ 122))

/-- Untrusted result of one acquisition pass, after the JSON price coercion
of `callGeminiWithWebSearch` (`price = none` is the unknown sentinel for a
`null`/`undefined`/`NaN` price). -/
structure RawOffer where
  site : String
  price : Option ℚ
  partnerId : Option String
  conditions_match : Bool
  direct_link : Option String
deriving Repr, DecidableEq

/-- Booking conditions echoed through the search endpoint. -/
structure Conditions where
  room_type : Option String
  free_cancellation : Option Bool
  breakfast_included : Option Bool
deriving Repr, DecidableEq

/-- Return value of `apply40PercentRule` (src/server.js lines 559-583).
`threshold` is the rounded value placed in the returned object; the
comparison in the source uses the unrounded product. -/
structure FairnessDecision where
  partnerSavings : ℚ
  competitorSavings : ℚ
  savingsGap : ℚ
  threshold : ℤ
  showPartner : Bool
  explanation : String
deriving Repr, DecidableEq

/-- Business-logic trace included in a savings response. -/
structure BusinessLogic where
  original_price : ℚ
  partner_price : ℚ
  competitor_price : ℚ
  partner_savings : ℚ
  competitor_savings : ℚ
  savings_gap : ℚ
  threshold_40_percent : ℤ
  decision : String
deriving Repr, DecidableEq

/-- Response payload of `POST /api/search`: the no-savings variant carries no
link and no decision trace; the savings variant carries the chosen link and
the full business-logic trace. -/
inductive SearchResponse where
  | noSavings (original_price : ℚ) (currency : String) (conditions_checked : Conditions)
  | savingsFound (provider : String) (newPrice : ℚ) (savings : ℚ) (link : String)
      (is_affiliate : Bool) (conditions_match : Bool) (conditions_warning : Bool)
      (business_logic : BusinessLogic)
deriving Repr, DecidableEq

/-- Link carried by a response, if any. -/
def SearchResponse.link? : SearchResponse → Option String
  | .noSavings _ _ _ => none
  | .savingsFound _ _ _ link _ _ _ _ => some link

/-- Entry of the `APPROVED_PARTNERS` catalog. -/
structure Partner where
  name : String
  cjId : String
  baseUrl : String
deriving Repr, DecidableEq

/-- The `APPROVED_PARTNERS` object (src/server.js lines 62-78), as a lookup
by partner identifier. -/
def lookupPartner (pid : String) : Option Partner :=
  if pid = "hotels_com" then
    some ⟨"Hotels.com", "1702763", "https://www.anrdoezrs.net/click-1702763-15042852"⟩
  else if pid = "address_hotels" then
    some ⟨"Address Hotels", "7280686", "https://www.anrdoezrs.net/click-7280686-15042852"⟩
  else if pid = "mytrip" then
    some ⟨"MyTrip", "7122258", "https://www.anrdoezrs.net/click-7122258-15042852"⟩
  else none

/-- Default branch of `generateDirectLink` (src/server.js line 643): the
generic Google search URL used for a site not in the fixed table. -/
def googleFallbackLink (result : RawOffer) (hotelName checkIn checkOut defCI defCO : String) : String :=
  let hotelSearch := encodeURIComponent (if hotelName = "" then "hotel" else hotelName)
  let checkin := if checkIn = "" then defCI else checkIn
  let checkout := if checkOut = "" then defCO else checkOut
  "https://www.google.com/search?q=\"" ++ hotelSearch ++ "\"+hotel+booking+" ++ checkin ++ "+" ++
    checkout ++ "+site:" ++ onlyLowerAlpha (jsToLower result.site) ++ ".com"

/-- `generateDirectLink` (src/server.js lines 613-645). The clock-derived
defaults of `getDefaultCheckIn`/`getDefaultCheckOut` are passed in as
`defCI`/`defCO`. -/
def generateDirectLink (result : RawOffer) (hotelName checkIn checkOut defCI defCO : String) : String :=
  let hotelSearch := encodeURIComponent (if hotelName = "" then "hotel" else hotelName)
  let checkin := if checkIn = "" then defCI else checkIn
  let checkout := if checkOut = "" then defCO else checkOut
  let checkinFormatted := dashesToSlashes checkin
  let checkoutFormatted := dashesToSlashes checkout
  let siteL := jsToLower result.site
  if siteL = "expedia" then
    "https://www.expedia.com/Hotel-Search?destination=" ++ hotelSearch ++ "&startDate=" ++
      checkinFormatted ++ "&endDate=" ++ checkoutFormatted ++ "&rooms=1&adults=2"
  else if siteL = "agoda" then
    "https://www.agoda.com/search?city=" ++ hotelSearch ++ "&checkIn=" ++ checkin ++
      "&checkOut=" ++ checkout ++ "&rooms=1&adults=2"
  else if siteL = "priceline" then
    "https://www.priceline.com/relax/at/" ++ hotelSearch ++ "/" ++ checkin ++ "/" ++ checkout ++
      "/1-rooms-2-adults"
  else if siteL = "booking.com" ∨ siteL = "booking" then
    "https://www.booking.com/searchresults.html?ss=" ++ hotelSearch ++ "&checkin=" ++ checkin ++
      "&checkout=" ++ checkout ++ "&no_rooms=1&group_adults=2"
  else if siteL = "trivago" then
    "https://www.trivago.com/search?query=" ++ hotelSearch ++ "&checkin=" ++ checkin ++
      "&checkout=" ++ checkout ++ "&adults=2&rooms=1"
  else if siteL = "kayak" then
    "https://www.kayak.com/hotels/" ++ hotelSearch ++ "/" ++ checkin ++ "/" ++ checkout ++
      "/2adults"
  else if siteL = "hotels.com" then
    "https://www.hotels.com/search.do?q-destination=" ++ encodeURIComponent hotelSearch ++
      "&q-check-in=" ++ checkin ++ "&q-check-out=" ++ checkout ++
      "&q-rooms=1&q-room-0-adults=2&q-room-0-children=0"
  else
    googleFallbackLink result hotelName checkIn checkOut defCI defCO

/-- Site names handled by the fixed `switch` table of `generateDirectLink`
(lowercased, in source order). -/
def knownDirectSites : List String :=
  ["expedia", "agoda", "priceline", "booking.com", "booking", "trivago", "kayak", "hotels.com"]

/-- `generateAffiliateLink` (src/server.js lines 586-611): looks the partner
identifier up in the catalog, builds the per-partner target URL and wraps it
in the commission-tracking base URL; falls back to `generateDirectLink` when
the identifier is absent or not in the catalog. -/
def generateAffiliateLink (pr : RawOffer) (hotelName checkIn checkOut defCI defCO : String) : String :=
  match pr.partnerId with
  | none => generateDirectLink pr hotelName checkIn checkOut defCI defCO
  | some pid =>
    match lookupPartner pid with
    | none => generateDirectLink pr hotelName checkIn checkOut defCI defCO
    | some partner =>
      let hotelSearch := encodeURIComponent (if hotelName = "" then "hotel" else hotelName)
      let checkin := if checkIn = "" then defCI else checkIn
      let checkout := if checkOut = "" then defCO else checkOut
      if pid = "hotels_com" then
        partner.baseUrl ++ "?url=" ++ encodeURIComponent
          ("https://www.hotels.com/search.do?destination=" ++ hotelSearch ++ "&startDate=" ++
            checkin ++ "&endDate=" ++ checkout ++ "&locale=he_IL")
      else if pid = "address_hotels" then
        partner.baseUrl ++ "?url=" ++ encodeURIComponent
          ("https://www.addresshotels.com/hotels?destination=" ++ hotelSearch ++ "&checkin=" ++
            checkin ++ "&checkout=" ++ checkout)
      else if pid = "mytrip" then
        partner.baseUrl ++ "?url=" ++ encodeURIComponent
          ("https://www.mytrip.com/hotels?destination=" ++ hotelSearch ++ "&checkin=" ++
            checkin ++ "&checkout=" ++ checkout)
      else
        generateDirectLink pr hotelName checkIn checkOut defCI defCO

/-- Partner-identifier inference of `performPartnerSearchWithGemini`
(src/server.js lines 483-488): case-insensitive substring tests in source
order, defaulting to `hotels_com`. -/
def inferPartnerId (site : String) : String :=
  if containsSub (jsToLower site) "hotels" then "hotels_com"
  else if containsSub (jsToLower site) "mytrip" then "mytrip"
  else if containsSub (jsToLower site) "address" then "address_hotels"
  else "hotels_com"

/-- Fallback site list of the broad pass (src/server.js line 428). -/
def broadFallbackSites : List String :=
  ["Expedia", "Agoda", "Priceline", "Trivago"]

/-- `performBroadSearchWithGemini` (src/server.js lines 388-439), modelled on
the outcome of the external call: a success returns the extracted offer
unchanged; any failure is caught and converted to a synthetic offer with
price `Math.floor(rPrice*800)+3200` and a site drawn from
`broadFallbackSites` by `Math.floor(rSite*4)`. -/
def performBroadSearch (outcome : Option RawOffer) (rPrice rSite : ℚ) : RawOffer :=
  match outcome with
  | some result => result
  | none =>
    let fallbackPrice : ℚ := ((⌊rPrice * 800⌋ : ℤ) : ℚ) + 3200
    let fallbackSite := broadFallbackSites.getD (⌊rSite * 4⌋).toNat ""
    { site := fallbackSite, price := some fallbackPrice, partnerId := none,
      conditions_match := false, direct_link := none }

/-- Fallback (site, partnerId) options of the partner pass
(src/server.js lines 496-500). -/
def partnerFallbackOptions : List (String × String) :=
  [("Hotels.com", "hotels_com"), ("MyTrip", "mytrip"), ("Address Hotels", "address_hotels")]

/-- `performPartnerSearchWithGemini` (src/server.js lines 442-513): a success
returns the extracted offer, inferring a missing (falsy) `partnerId` from the
site name; any failure is caught and converted to a synthetic partner offer
with a pair drawn from `partnerFallbackOptions` by `Math.floor(rSite*3)` and
price `Math.floor(rPrice*600)+3400`. -/
def performPartnerSearch (outcome : Option RawOffer) (rSite rPrice : ℚ) : RawOffer :=
  match outcome with
  | some result =>
    if truthyStr result.partnerId then result
    else { result with partnerId := some (inferPartnerId result.site) }
  | none =>
    let chosen := partnerFallbackOptions.getD (⌊rSite * 3⌋).toNat ("", "")
    let fallbackPrice : ℚ := ((⌊rPrice * 600⌋ : ℤ) : ℚ) + 3400
    { site := chosen.1, price := some fallbackPrice, partnerId := some chosen.2,
      conditions_match := false, direct_link := none }

/-- Price sanitization of the broad result inside `POST /api/search`
(src/server.js lines 258-268): two sequential `if` statements — a
`null`/`undefined` price is first replaced by
`Math.floor(original*(0.85 + r1*0.10))`, then whatever price now stands is
replaced by `Math.floor(original*(0.70 + r2*0.15))` when below
`original*0.3`. -/
def sanitizeBroadPrice (original : ℚ) (price : Option ℚ) (r1 r2 : ℚ) : ℚ :=
  let p1 : ℚ :=
    match price with
    | none => ((⌊original * (17/20 + r1 * (1/10))⌋ : ℤ) : ℚ)
    | some p => p
  if p1 < original * (3/10) then ((⌊original * (7/10 + r2 * (3/20))⌋ : ℤ) : ℚ) else p1

/-- Price sanitization of the partner result inside `POST /api/search`
(src/server.js lines 277-287): sentinel band `0.88 + r1*0.07`, implausible
band `0.75 + r2*0.15`, otherwise as for the broad pass. -/
def sanitizePartnerPrice (original : ℚ) (price : Option ℚ) (r1 r2 : ℚ) : ℚ :=
  let p1 : ℚ :=
    match price with
    | none => ((⌊original * (22/25 + r1 * (7/100))⌋ : ℤ) : ℚ)
    | some p => p
  if p1 < original * (3/10) then ((⌊original * (3/4 + r2 * (3/20))⌋ : ℤ) : ℚ) else p1

/-- Definition following the spec's words for the broad-pass sanitizer: the
two rules read as `if sentinel ... else if below 0.30×original ...`, so a
sentinel replacement is never itself re-checked. Used to compare the claimed
rule order with the source's sequential checks. -/
def specSanitizeBroadPrice (original : ℚ) (price : Option ℚ) (r1 r2 : ℚ) : ℚ :=
  match price with
  | none => ((⌊original * (17/20 + r1 * (1/10))⌋ : ℤ) : ℚ)
  | some p =>
    if p < original * (3/10) then ((⌊original * (7/10 + r2 * (3/20))⌋ : ℤ) : ℚ) else p

/-- Definition following the spec's words for the partner-pass sanitizer
(else-if reading, see `specSanitizeBroadPrice`). -/
def specSanitizePartnerPrice (original : ℚ) (price : Option ℚ) (r1 r2 : ℚ) : ℚ :=
  match price with
  | none => ((⌊original * (22/25 + r1 * (7/100))⌋ : ℤ) : ℚ)
  | some p =>
    if p < original * (3/10) then ((⌊original * (3/4 + r2 * (3/20))⌋ : ℤ) : ℚ) else p

/-- `apply40PercentRule` (src/server.js lines 559-583). The decision compares
`savingsGap` with the unrounded `partnerSavings * 0.40`; the returned
`threshold` field is `Math.round` of that product. -/
def apply40PercentRule (originalPrice partnerPrice competitorPrice : ℚ) : FairnessDecision :=
  let partnerSavings := originalPrice - partnerPrice
  let competitorSavings := originalPrice - competitorPrice
  let savingsGap := competitorSavings - partnerSavings
  let threshold : ℚ := partnerSavings * (2/5)
  let showPartner : Bool := decide (savingsGap ≤ threshold)
  { partnerSavings := partnerSavings
    competitorSavings := competitorSavings
    savingsGap := savingsGap
    threshold := round threshold
    showPartner := showPartner
    explanation :=
      if showPartner then "Gap is small - showing profitable partner link"
      else "Gap is significant - showing fair competitor link" }

/-- Orchestration of `POST /api/search` from the two acquisition results
onward (src/server.js lines 256-375): sanitize both prices, exit early with
the no-savings variant when neither sanitized price beats the original,
otherwise apply the fairness rule, pick the link (verbatim direct link when
present and conditions match, else composed affiliate/direct link) and
assemble the response. -/
def searchOrchestrate (original : ℚ) (currency : String) (conds : Conditions)
    (broadRaw partnerRaw : RawOffer) (rB1 rB2 rP1 rP2 : ℚ)
    (hotelName checkIn checkOut defCI defCO : String) : SearchResponse :=
  let bPrice := sanitizeBroadPrice original broadRaw.price rB1 rB2
  let pPrice := sanitizePartnerPrice original partnerRaw.price rP1 rP2
  let broad : RawOffer := { broadRaw with price := some bPrice }
  let partner : RawOffer := { partnerRaw with price := some pPrice }
  if original ≤ pPrice ∧ original ≤ bPrice then
    .noSavings original currency conds
  else
    let decision := apply40PercentRule original pPrice bPrice
    let chosen := if decision.showPartner then partner else broad
    let chosenPrice := if decision.showPartner then pPrice else bPrice
    let link :=
      if truthyStr chosen.direct_link && chosen.conditions_match then
        chosen.direct_link.getD ""
      else if decision.showPartner then
        generateAffiliateLink partner hotelName checkIn checkOut defCI defCO
      else
        generateDirectLink broad hotelName checkIn checkOut defCI defCO
    .savingsFound chosen.site chosenPrice (original - chosenPrice) link
      decision.showPartner chosen.conditions_match (!chosen.conditions_match)
      { original_price := original
        partner_price := pPrice
        competitor_price := bPrice
        partner_savings := decision.partnerSavings
        competitor_savings := decision.competitorSavings
        savings_gap := decision.savingsGap
        threshold_40_percent := decision.threshold
        decision := if decision.showPartner then "partner" else "competitor" }

end PriceDrop

namespace PriceDrop

/- Helper lemmas (shared). -/

/-- Positivity of a string length from a positive-length left part. -/
theorem append_length_pos_left (s t : String) (h : 0 < s.length) : 0 < (s ++ t).length := by
  rw [String.length_append]
  omega

/-- Positivity of a string length from a positive-length right part. -/
theorem append_length_pos_right (s t : String) (h : 0 < t.length) : 0 < (s ++ t).length := by
  rw [String.length_append]
  omega

/-- Lower bound on a floored band value: when `original ≥ 2` and the band
fraction is at least `11/20`-away-from-one, the floored sentinel replacement
stays at or above the `0.30×original` plausibility floor. -/
theorem floor_band_ge_floor (o x : ℚ) (ho : 2 ≤ o) (hx : o * (17/20) ≤ x) :
    ¬ ((⌊x⌋ : ℤ) : ℚ) < o * (3/10) := by
  have h1 : x - 1 < ((⌊x⌋ : ℤ) : ℚ) := Int.sub_one_lt_floor x
  push_neg
  nlinarith

/-- Nonnegativity of a floored band value. -/
theorem floor_band_nonneg (x : ℚ) (hx : 0 ≤ x) : (0:ℚ) ≤ ((⌊x⌋ : ℤ) : ℚ) := by
  exact_mod_cast Int.floor_nonneg.mpr hx

/-- C1, counterexample. The claim reads `showPartner = (savingsGap ≤ threshold)`
with `threshold` the rounded value reported in the returned decision. At
`original = 100`, `partnerPrice = 98`, `competitorPrice = 97` the code gets
`savingsGap = 1`, unrounded threshold `0.8` (so `showPartner = false`), but
reports `threshold = round 0.8 = 1` and `1 ≤ 1`, so the claimed equivalence
fails. -/
theorem fairness_threshold_claim_counterexample :
    ¬ ((apply40PercentRule 100 98 97).showPartner = true ↔
        (apply40PercentRule 100 98 97).savingsGap ≤
          ((apply40PercentRule 100 98 97).threshold : ℚ)) := by
  simp only [apply40PercentRule, decide_eq_true_eq]
  norm_num [round_eq]

/-- C1, amended: `apply40PercentRule` returns `showPartner = true` iff
`savingsGap ≤ 0.40 × partnerSavings` with the threshold NOT rounded for the
comparison; the `threshold` field reported in the returned decision is
`round (0.40 × partnerSavings)`, and the savings fields are as claimed. -/
theorem fairness_rule_correct (o p c : ℚ) :
    ((apply40PercentRule o p c).showPartner = true ↔
      (apply40PercentRule o p c).savingsGap ≤ (o - p) * (2/5)) ∧
    (apply40PercentRule o p c).partnerSavings = o - p ∧
    (apply40PercentRule o p c).competitorSavings = o - c ∧
    (apply40PercentRule o p c).savingsGap = (o - c) - (o - p) ∧
    (apply40PercentRule o p c).threshold = round ((o - p) * (2/5)) := by
  simp [apply40PercentRule, decide_eq_true_eq]

/-- C8: holding `original` and `partnerPrice` fixed, `savingsGap` is
monotonically decreasing in `competitorPrice`, hence `showPartner` can only
flip from `true` to `false` as `competitorPrice` decreases (if the partner is
shown at the lower competitor price, it is also shown at the higher one). -/
theorem fairness_monotonicity (o p c1 c2 : ℚ) (h : c1 ≤ c2) :
    (apply40PercentRule o p c2).savingsGap ≤ (apply40PercentRule o p c1).savingsGap ∧
    ((apply40PercentRule o p c1).showPartner = true →
      (apply40PercentRule o p c2).showPartner = true) := by
  simp only [apply40PercentRule, decide_eq_true_eq]
  constructor
  · linarith
  · intro h1
    linarith

/-- C8, witness at `original = 100`, `partnerPrice = 90`,
`competitorPrice` from 80 to 85. -/
theorem fairness_monotonicity_witness :
    (80 : ℚ) ≤ 85 ∧
    ((apply40PercentRule 100 90 85).savingsGap ≤ (apply40PercentRule 100 90 80).savingsGap ∧
      ((apply40PercentRule 100 90 80).showPartner = true →
        (apply40PercentRule 100 90 85).showPartner = true)) :=
  ⟨by norm_num, fairness_monotonicity 100 90 80 85 (by norm_num)⟩

/-- C2, counterexample. The claim's "else if" reading never re-checks a
sentinel replacement, but the code's two checks are sequential: at
`original = 1.13` with a sentinel price and draws `r1 = 0`, `r2 = 0.99`, the
sentinel replacement `⌊1.13·0.88⌋ = 0` falls below `0.3·original` and is
replaced again, giving `1`, while the claimed rules give `0`. -/
theorem sanitizer_rules_counterexample :
    sanitizePartnerPrice (113/100) none 0 (99/100) ≠
      specSanitizePartnerPrice (113/100) none 0 (99/100) := by
  have h1 : sanitizePartnerPrice (113/100) none 0 (99/100) = 1 := by
    simp only [sanitizePartnerPrice]
    norm_num
  have h2 : specSanitizePartnerPrice (113/100) none 0 (99/100) = 0 := by
    simp only [specSanitizePartnerPrice]
    norm_num
  rw [h1, h2]
  norm_num

/-- C2, amended: the sanitizer applies the two checks sequentially, so a
sentinel replacement is itself subject to the below-`0.30×original` check;
whenever `original ≥ 2` that replacement always passes the check and the
behavior coincides with the claim's else-if rules, whose replacement draws lie
in the stated bands ([0.85,0.95]×original broad / [0.88,0.95]×original partner
for a sentinel, [0.70,0.85]×original broad / [0.75,0.90]×original partner for
an implausibly cheap price), each floored to an integer unit. -/
theorem sanitizer_rules_correct (o r1 r2 : ℚ) (price : Option ℚ)
    (ho : 2 ≤ o) (h1 : 0 ≤ r1) (h1' : r1 < 1) (h2 : 0 ≤ r2) (h2' : r2 < 1) :
    sanitizeBroadPrice o price r1 r2 = specSanitizeBroadPrice o price r1 r2 ∧
    sanitizePartnerPrice o price r1 r2 = specSanitizePartnerPrice o price r1 r2 ∧
    o * (17/20) ≤ o * (17/20 + r1 * (1/10)) ∧ o * (17/20 + r1 * (1/10)) < o * (19/20) ∧
    o * (22/25) ≤ o * (22/25 + r1 * (7/100)) ∧ o * (22/25 + r1 * (7/100)) < o * (19/20) ∧
    o * (7/10) ≤ o * (7/10 + r2 * (3/20)) ∧ o * (7/10 + r2 * (3/20)) < o * (17/20) ∧
    o * (3/4) ≤ o * (3/4 + r2 * (3/20)) ∧ o * (3/4 + r2 * (3/20)) < o * (9/10) := by
  have ho0 : (0:ℚ) < o := by linarith
  refine ⟨?_, ?_, by nlinarith, by nlinarith, by nlinarith, by nlinarith,
    by nlinarith, by nlinarith, by nlinarith, by nlinarith⟩
  · cases price with
    | none =>
      simp only [sanitizeBroadPrice, specSanitizeBroadPrice]
      rw [if_neg (floor_band_ge_floor o _ ho (by nlinarith))]
    | some p =>
      simp only [sanitizeBroadPrice, specSanitizeBroadPrice]
  · cases price with
    | none =>
      simp only [sanitizePartnerPrice, specSanitizePartnerPrice]
      rw [if_neg (floor_band_ge_floor o _ ho (by nlinarith))]
    | some p =>
      simp only [sanitizePartnerPrice, specSanitizePartnerPrice]

/-- C2, witness at `original = 4000`, sentinel price, draws 0 and 1/2. -/
theorem sanitizer_rules_correct_witness :
    (2:ℚ) ≤ 4000 ∧ (0:ℚ) ≤ 0 ∧ (0:ℚ) < 1 ∧ (0:ℚ) ≤ 1/2 ∧ (1/2:ℚ) < 1 ∧
    (sanitizeBroadPrice 4000 none 0 (1/2) = specSanitizeBroadPrice 4000 none 0 (1/2) ∧
      sanitizePartnerPrice 4000 none 0 (1/2) = specSanitizePartnerPrice 4000 none 0 (1/2) ∧
      (4000:ℚ) * (17/20) ≤ 4000 * (17/20 + 0 * (1/10)) ∧
      (4000:ℚ) * (17/20 + 0 * (1/10)) < 4000 * (19/20) ∧
      (4000:ℚ) * (22/25) ≤ 4000 * (22/25 + 0 * (7/100)) ∧
      (4000:ℚ) * (22/25 + 0 * (7/100)) < 4000 * (19/20) ∧
      (4000:ℚ) * (7/10) ≤ 4000 * (7/10 + 1/2 * (3/20)) ∧
      (4000:ℚ) * (7/10 + 1/2 * (3/20)) < 4000 * (17/20) ∧
      (4000:ℚ) * (3/4) ≤ 4000 * (3/4 + 1/2 * (3/20)) ∧
      (4000:ℚ) * (3/4 + 1/2 * (3/20)) < 4000 * (9/10)) :=
  ⟨by norm_num, by norm_num, by norm_num, by norm_num, by norm_num,
    sanitizer_rules_correct 4000 0 (1/2) none (by norm_num) (by norm_num) (by norm_num)
      (by norm_num) (by norm_num)⟩

/-- C9, counterexample to "(and therefore idempotent on its own outputs)":
with `original = 1.4` the sanitizer maps the implausible price `-1` to
`⌊1.4·0.70⌋ = 0`, an output that is itself below `0.3·original = 0.42`, so a
second sanitization with fresh draw `r2 = 0.9` re-fires the repair rule and
returns `⌊1.4·0.835⌋ = 1 ≠ 0`. -/
theorem sanitizer_idempotence_counterexample :
    sanitizeBroadPrice (7/5) (some (sanitizeBroadPrice (7/5) (some (-1)) 0 0)) 0 (9/10) ≠
      sanitizeBroadPrice (7/5) (some (-1)) 0 0 := by
  have h : sanitizeBroadPrice (7/5) (some (-1)) 0 0 = 0 := by
    simp only [sanitizeBroadPrice]
    norm_num
  rw [h]
  simp only [sanitizeBroadPrice]
  norm_num

/-- C9, amended: sanitization is the identity on every present price at or
above `0.30×original`, on both passes (hence it is idempotent on any output
that is itself still at or above that floor; outputs below the floor —
possible only for small originals, by flooring — may change on a re-run). -/
theorem sanitizer_identity (o p r1 r2 : ℚ) (h : o * (3/10) ≤ p) :
    sanitizeBroadPrice o (some p) r1 r2 = p ∧ sanitizePartnerPrice o (some p) r1 r2 = p := by
  constructor
  · simp only [sanitizeBroadPrice]
    rw [if_neg (not_lt.mpr h)]
  · simp only [sanitizePartnerPrice]
    rw [if_neg (not_lt.mpr h)]

/-- C9, witness at `original = 100`, price 90. -/
theorem sanitizer_identity_witness :
    (100:ℚ) * (3/10) ≤ 90 ∧
    (sanitizeBroadPrice 100 (some 90) 0 0 = 90 ∧ sanitizePartnerPrice 100 (some 90) 0 0 = 90) :=
  ⟨by norm_num, sanitizer_identity 100 90 0 0 (by norm_num)⟩

/-- C7: after sanitization the price is a non-negative rational (finiteness
is inherent to the `ℚ` model: the JSON coercion in `callGeminiWithWebSearch`
maps any non-numeric or `NaN` price to the `none` sentinel, covered here by
the `price = none` case), on both passes; in particular a negative raw price
never survives sanitization. -/
theorem sanitized_price_nonneg (o : ℚ) (price : Option ℚ) (r1 r2 : ℚ)
    (ho : 0 ≤ o) (h1 : 0 ≤ r1) (h2 : 0 ≤ r2) :
    0 ≤ sanitizeBroadPrice o price r1 r2 ∧ 0 ≤ sanitizePartnerPrice o price r1 r2 ∧
    (∀ p : ℚ, p < 0 → sanitizeBroadPrice o (some p) r1 r2 ≠ p ∧
      sanitizePartnerPrice o (some p) r1 r2 ≠ p) := by
  have key : ∀ (a b : ℚ), 0 ≤ a → 0 ≤ b →
      ∀ q : Option ℚ, 0 ≤ (match q with
        | none => ((⌊o * a⌋ : ℤ) : ℚ)
        | some p => p) →
      True := fun _ _ _ _ _ _ => trivial
  have hbroad : ∀ q : Option ℚ, 0 ≤ sanitizeBroadPrice o q r1 r2 := by
    intro q
    simp only [sanitizeBroadPrice]
    split_ifs with hc
    · exact floor_band_nonneg _ (by nlinarith)
    · match q with
      | none => exact floor_band_nonneg _ (by nlinarith)
      | some p =>
        simp only [not_lt] at hc
        nlinarith
  have hpartner : ∀ q : Option ℚ, 0 ≤ sanitizePartnerPrice o q r1 r2 := by
    intro q
    simp only [sanitizePartnerPrice]
    split_ifs with hc
    · exact floor_band_nonneg _ (by nlinarith)
    · match q with
      | none => exact floor_band_nonneg _ (by nlinarith)
      | some p =>
        simp only [not_lt] at hc
        nlinarith
  refine ⟨hbroad price, hpartner price, ?_⟩
  intro p hp
  constructor
  · intro hEq
    have := hbroad (some p)
    rw [hEq] at this
    linarith
  · intro hEq
    have := hpartner (some p)
    rw [hEq] at this
    linarith

/-- C7, witness at `original = 100`, raw price `-5`, draws 0. -/
theorem sanitized_price_nonneg_witness :
    (0:ℚ) ≤ 100 ∧
    (0 ≤ sanitizeBroadPrice 100 (some (-5)) 0 0 ∧ 0 ≤ sanitizePartnerPrice 100 (some (-5)) 0 0 ∧
      (∀ p : ℚ, p < 0 → sanitizeBroadPrice 100 (some p) 0 0 ≠ p ∧
        sanitizePartnerPrice 100 (some p) 0 0 ≠ p)) :=
  ⟨by norm_num, sanitized_price_nonneg 100 (some (-5)) 0 0 (by norm_num) (by norm_num) (by norm_num)⟩



/-- C3: when both sanitized prices are at or above the original price the
orchestrator returns the no-savings variant immediately — a constructor that
carries no link and no decision trace (`link? = none`); the fairness rule and
both link builders appear only in the other branch of `searchOrchestrate`, so
they are not invoked. -/
theorem no_savings_exit (original : ℚ) (currency : String) (conds : Conditions)
    (broadRaw partnerRaw : RawOffer) (rB1 rB2 rP1 rP2 : ℚ)
    (hotelName checkIn checkOut defCI defCO : String)
    (hp : original ≤ sanitizePartnerPrice original partnerRaw.price rP1 rP2)
    (hb : original ≤ sanitizeBroadPrice original broadRaw.price rB1 rB2) :
    searchOrchestrate original currency conds broadRaw partnerRaw rB1 rB2 rP1 rP2
        hotelName checkIn checkOut defCI defCO = .noSavings original currency conds ∧
    (searchOrchestrate original currency conds broadRaw partnerRaw rB1 rB2 rP1 rP2
        hotelName checkIn checkOut defCI defCO).link? = none := by
  simp only [searchOrchestrate]
  rw [if_pos ⟨hp, hb⟩]
  exact ⟨rfl, rfl⟩

/-- C3, witness: original 100 against sanitized prices 110 and 120. -/
theorem no_savings_exit_witness :
    (100 : ℚ) ≤ sanitizePartnerPrice 100 (some 110) 0 0 ∧
    (100 : ℚ) ≤ sanitizeBroadPrice 100 (some 120) 0 0 ∧
    (searchOrchestrate 100 "ILS" ⟨none, none, none⟩
        ⟨"Expedia", some 120, none, true, none⟩
        ⟨"Hotels.com", some 110, some "hotels_com", true, none⟩
        0 0 0 0 "H" "ci" "co" "d1" "d2" = .noSavings 100 "ILS" ⟨none, none, none⟩ ∧
      (searchOrchestrate 100 "ILS" ⟨none, none, none⟩
        ⟨"Expedia", some 120, none, true, none⟩
        ⟨"Hotels.com", some 110, some "hotels_com", true, none⟩
        0 0 0 0 "H" "ci" "co" "d1" "d2").link? = none) :=
  ⟨by simp only [sanitizePartnerPrice]; norm_num,
   by simp only [sanitizeBroadPrice]; norm_num,
   no_savings_exit 100 "ILS" ⟨none, none, none⟩
     ⟨"Expedia", some 120, none, true, none⟩
     ⟨"Hotels.com", some 110, some "hotels_com", true, none⟩
     0 0 0 0 "H" "ci" "co" "d1" "d2"
     (by simp only [sanitizePartnerPrice]; norm_num)
     (by simp only [sanitizeBroadPrice]; norm_num)⟩

/-- C5: when the chosen offer (partner or competitor branch alike) carries a
(non-empty, hence JS-truthy) direct link and its `conditions_match` flag is
true, the link in the final response is exactly that direct link. -/
theorem direct_link_verbatim (original : ℚ) (currency : String) (conds : Conditions)
    (broadRaw partnerRaw : RawOffer) (rB1 rB2 rP1 rP2 : ℚ)
    (hotelName checkIn checkOut defCI defCO : String) (s : String)
    (hns : ¬ (original ≤ sanitizePartnerPrice original partnerRaw.price rP1 rP2 ∧
        original ≤ sanitizeBroadPrice original broadRaw.price rB1 rB2))
    (hdl : (if (apply40PercentRule original
          (sanitizePartnerPrice original partnerRaw.price rP1 rP2)
          (sanitizeBroadPrice original broadRaw.price rB1 rB2)).showPartner
        then partnerRaw else broadRaw).direct_link = some s)
    (hne : s ≠ "")
    (hcm : (if (apply40PercentRule original
          (sanitizePartnerPrice original partnerRaw.price rP1 rP2)
          (sanitizeBroadPrice original broadRaw.price rB1 rB2)).showPartner
        then partnerRaw else broadRaw).conditions_match = true) :
    (searchOrchestrate original currency conds broadRaw partnerRaw rB1 rB2 rP1 rP2
        hotelName checkIn checkOut defCI defCO).link? = some s := by
  simp only [searchOrchestrate]
  rw [if_neg hns]
  cases hsp : (apply40PercentRule original
      (sanitizePartnerPrice original partnerRaw.price rP1 rP2)
      (sanitizeBroadPrice original broadRaw.price rB1 rB2)).showPartner with
  | true =>
    rw [hsp] at hdl hcm
    simp at hdl hcm
    simp [hsp, hdl, hcm, truthyStr, SearchResponse.link?, String.isEmpty_iff, hne]
  | false =>
    rw [hsp] at hdl hcm
    simp at hdl hcm
    simp [hsp, hdl, hcm, truthyStr, SearchResponse.link?, String.isEmpty_iff, hne]

/-- C5, witness: the competitor branch wins and its direct link is returned
verbatim. -/
theorem direct_link_verbatim_witness :
    (¬ ((100:ℚ) ≤ sanitizePartnerPrice 100 (some 95) 0 0 ∧
        (100:ℚ) ≤ sanitizeBroadPrice 100 (some 90) 0 0)) ∧
    ((if (apply40PercentRule 100 (sanitizePartnerPrice 100 (some 95) 0 0)
          (sanitizeBroadPrice 100 (some 90) 0 0)).showPartner
        then (⟨"Hotels.com", some 95, some "hotels_com", true, some "https://y"⟩ : RawOffer)
        else (⟨"Expedia", some 90, none, true, some "https://x"⟩ : RawOffer)).direct_link
      = some "https://x") ∧
    ("https://x" ≠ "") ∧
    ((searchOrchestrate 100 "ILS" ⟨none, none, none⟩
        ⟨"Expedia", some 90, none, true, some "https://x"⟩
        ⟨"Hotels.com", some 95, some "hotels_com", true, some "https://y"⟩
        0 0 0 0 "H" "ci" "co" "d1" "d2").link? = some "https://x") := by
  have h1 : ¬ ((100:ℚ) ≤ sanitizePartnerPrice 100 (some 95) 0 0 ∧
      (100:ℚ) ≤ sanitizeBroadPrice 100 (some 90) 0 0) := by
    simp only [sanitizePartnerPrice, sanitizeBroadPrice]
    norm_num
  have hsp : (apply40PercentRule 100 (sanitizePartnerPrice 100 (some 95) 0 0)
      (sanitizeBroadPrice 100 (some 90) 0 0)).showPartner = false := by
    simp only [sanitizePartnerPrice, sanitizeBroadPrice, apply40PercentRule,
      decide_eq_false_iff_not, not_le]
    norm_num
  have h2 : ((if (apply40PercentRule 100 (sanitizePartnerPrice 100 (some 95) 0 0)
        (sanitizeBroadPrice 100 (some 90) 0 0)).showPartner
      then (⟨"Hotels.com", some 95, some "hotels_com", true, some "https://y"⟩ : RawOffer)
      else (⟨"Expedia", some 90, none, true, some "https://x"⟩ : RawOffer)).direct_link
    = some "https://x") := by
    rw [hsp]
    simp
  have h3 : ((if (apply40PercentRule 100 (sanitizePartnerPrice 100 (some 95) 0 0)
        (sanitizeBroadPrice 100 (some 90) 0 0)).showPartner
      then (⟨"Hotels.com", some 95, some "hotels_com", true, some "https://y"⟩ : RawOffer)
      else (⟨"Expedia", some 90, none, true, some "https://x"⟩ : RawOffer)).conditions_match
    = true) := by
    rw [hsp]
    simp
  exact ⟨h1, h2, by decide,
    direct_link_verbatim 100 "ILS" ⟨none, none, none⟩
      ⟨"Expedia", some 90, none, true, some "https://x"⟩
      ⟨"Hotels.com", some 95, some "hotels_com", true, some "https://y"⟩
      0 0 0 0 "H" "ci" "co" "d1" "d2" "https://x" h1 h2 (by decide) h3⟩



/-- C4, counterexample. On the partner pass the synthetic fallback's site is
not a fixed partner: it is drawn pseudo-randomly from a 3-entry list, and two
different draws yield different sites. -/
theorem partner_fallback_counterexample :
    (performPartnerSearch none 0 0).site ≠ (performPartnerSearch none (1/2) 0).site := by
  have h1 : (performPartnerSearch none 0 0).site = "Hotels.com" := by
    simp only [performPartnerSearch]
    norm_num [partnerFallbackOptions]
  have h2 : (performPartnerSearch none (1/2) 0).site = "MyTrip" := by
    simp only [performPartnerSearch]
    norm_num [partnerFallbackOptions]
  rw [h1, h2]
  decide

/-- C4, amended: any failure of the external invocation or of JSON
extraction (the `none` outcome) yields a synthetic offer — never an error —
with a pseudo-random price in a fixed plausible band ([3200,4000) broad,
[3400,4000) partner), `conditions_match = false` and no direct link, whose
site is drawn pseudo-randomly from a small fixed list on BOTH passes: the
4-entry generic list on the broad pass, and the 3-entry approved-partner list
(with matching partner identifier) on the partner pass. -/
theorem acquisition_fallback (rPrice rSite : ℚ) (hp : 0 ≤ rPrice) (hp' : rPrice < 1)
    (hs : 0 ≤ rSite) (hs' : rSite < 1) :
    ((3200 : ℚ) ≤ (performBroadSearch none rPrice rSite).price.getD 0 ∧
      (performBroadSearch none rPrice rSite).price.getD 0 < 4000 ∧
      (performBroadSearch none rPrice rSite).conditions_match = false ∧
      (performBroadSearch none rPrice rSite).direct_link = none ∧
      (performBroadSearch none rPrice rSite).site ∈ broadFallbackSites) ∧
    ((3400 : ℚ) ≤ (performPartnerSearch none rSite rPrice).price.getD 0 ∧
      (performPartnerSearch none rSite rPrice).price.getD 0 < 4000 ∧
      (performPartnerSearch none rSite rPrice).conditions_match = false ∧
      (performPartnerSearch none rSite rPrice).direct_link = none ∧
      ((performPartnerSearch none rSite rPrice).site,
        (performPartnerSearch none rSite rPrice).partnerId.getD "") ∈ partnerFallbackOptions) := by
  have hb1 : (0:ℤ) ≤ ⌊rPrice * 800⌋ := Int.floor_nonneg.mpr (by positivity)
  have hb2 : ((⌊rPrice * 800⌋ : ℤ) : ℚ) ≤ rPrice * 800 := Int.floor_le _
  have hp1 : (0:ℤ) ≤ ⌊rPrice * 600⌋ := Int.floor_nonneg.mpr (by positivity)
  have hp2 : ((⌊rPrice * 600⌋ : ℤ) : ℚ) ≤ rPrice * 600 := Int.floor_le _
  have hsix : (⌊rSite * 4⌋).toNat < 4 := by
    have hlt : ⌊rSite * 4⌋ < 4 := Int.floor_lt.mpr (by push_cast; linarith)
    have hge : (0:ℤ) ≤ ⌊rSite * 4⌋ := Int.floor_nonneg.mpr (by positivity)
    omega
  have hsix3 : (⌊rSite * 3⌋).toNat < 3 := by
    have hlt : ⌊rSite * 3⌋ < 3 := Int.floor_lt.mpr (by push_cast; linarith)
    have hge : (0:ℤ) ≤ ⌊rSite * 3⌋ := Int.floor_nonneg.mpr (by positivity)
    omega
  refine ⟨⟨?_, ?_, rfl, rfl, ?_⟩, ⟨?_, ?_, rfl, rfl, ?_⟩⟩
  · simp only [performBroadSearch, Option.getD_some]
    have : (0:ℚ) ≤ ((⌊rPrice * 800⌋ : ℤ) : ℚ) := by exact_mod_cast hb1
    linarith
  · simp only [performBroadSearch, Option.getD_some]
    have : rPrice * 800 < 800 := by linarith
    linarith
  · simp only [performBroadSearch]
    have h4 : (⌊rSite * 4⌋).toNat = 0 ∨ (⌊rSite * 4⌋).toNat = 1 ∨
        (⌊rSite * 4⌋).toNat = 2 ∨ (⌊rSite * 4⌋).toNat = 3 := by omega
    rcases h4 with h | h | h | h <;> rw [h] <;> decide
  · simp only [performPartnerSearch, Option.getD_some]
    have : (0:ℚ) ≤ ((⌊rPrice * 600⌋ : ℤ) : ℚ) := by exact_mod_cast hp1
    linarith
  · simp only [performPartnerSearch, Option.getD_some]
    have : rPrice * 600 < 600 := by linarith
    linarith
  · simp only [performPartnerSearch]
    have h3 : (⌊rSite * 3⌋).toNat = 0 ∨ (⌊rSite * 3⌋).toNat = 1 ∨
        (⌊rSite * 3⌋).toNat = 2 := by omega
    rcases h3 with h | h | h <;> rw [h] <;> decide

/-- C4, witness at draws 1/2 (price) and 0 (site). -/
theorem acquisition_fallback_witness :
    (0:ℚ) ≤ 1/2 ∧ (1/2:ℚ) < 1 ∧ (0:ℚ) ≤ 0 ∧ (0:ℚ) < 1 ∧
    (((3200 : ℚ) ≤ (performBroadSearch none (1/2) 0).price.getD 0 ∧
      (performBroadSearch none (1/2) 0).price.getD 0 < 4000 ∧
      (performBroadSearch none (1/2) 0).conditions_match = false ∧
      (performBroadSearch none (1/2) 0).direct_link = none ∧
      (performBroadSearch none (1/2) 0).site ∈ broadFallbackSites) ∧
    ((3400 : ℚ) ≤ (performPartnerSearch none 0 (1/2)).price.getD 0 ∧
      (performPartnerSearch none 0 (1/2)).price.getD 0 < 4000 ∧
      (performPartnerSearch none 0 (1/2)).conditions_match = false ∧
      (performPartnerSearch none 0 (1/2)).direct_link = none ∧
      ((performPartnerSearch none 0 (1/2)).site,
        (performPartnerSearch none 0 (1/2)).partnerId.getD "") ∈ partnerFallbackOptions)) :=
  ⟨by norm_num, by norm_num, by norm_num, by norm_num,
    acquisition_fallback (1/2) 0 (by norm_num) (by norm_num) (by norm_num) (by norm_num)⟩

/-- C10: a partner-pass result arriving without a (truthy) partnerId gets
one inferred by case-insensitive substring tests in the fixed source order
'hotels', 'mytrip', 'address' (default 'hotels_com'); hence every site name
containing 'hotels' — including 'Address Hotels' — is mapped to 'hotels_com',
never 'address_hotels', and the affiliate link for such an offer is built on
the hotels_com commission-tracking base URL. -/
theorem partner_id_inference (offer : RawOffer) (rS rP : ℚ)
    (hotelName checkIn checkOut defCI defCO : String)
    (hnopid : truthyStr offer.partnerId = false)
    (hsite : containsSub (jsToLower offer.site) "hotels" = true) :
    (performPartnerSearch (some offer) rS rP).partnerId = some "hotels_com" ∧
    inferPartnerId offer.site = "hotels_com" ∧
    (lookupPartner "hotels_com").map Partner.baseUrl =
      some "https://www.anrdoezrs.net/click-1702763-15042852" ∧
    (∃ rest, generateAffiliateLink (performPartnerSearch (some offer) rS rP)
        hotelName checkIn checkOut defCI defCO =
      "https://www.anrdoezrs.net/click-1702763-15042852?url=" ++ rest) := by
  have hinfer : inferPartnerId offer.site = "hotels_com" := by
    simp only [inferPartnerId]
    rw [if_pos hsite]
  have hres : performPartnerSearch (some offer) rS rP =
      { offer with partnerId := some (inferPartnerId offer.site) } := by
    simp only [performPartnerSearch, hnopid]
    simp
  rw [hres, hinfer]
  refine ⟨rfl, rfl, rfl, ?_⟩
  simp only [generateAffiliateLink, lookupPartner]
  refine ⟨encodeURIComponent
    ("https://www.hotels.com/search.do?destination=" ++
      encodeURIComponent (if hotelName = "" then "hotel" else hotelName) ++ "&startDate=" ++
      (if checkIn = "" then defCI else checkIn) ++ "&endDate=" ++
      (if checkOut = "" then defCO else checkOut) ++ "&locale=he_IL"), ?_⟩
  simp

/-- C10, witness: the site 'Address Hotels' is mapped to 'hotels_com'. -/
theorem partner_id_inference_witness :
    truthyStr (none : Option String) = false ∧
    containsSub (jsToLower "Address Hotels") "hotels" = true ∧
    ((performPartnerSearch (some ⟨"Address Hotels", some 3500, none, true, none⟩) 0 0).partnerId
        = some "hotels_com" ∧
      inferPartnerId "Address Hotels" = "hotels_com" ∧
      (lookupPartner "hotels_com").map Partner.baseUrl =
        some "https://www.anrdoezrs.net/click-1702763-15042852" ∧
      (∃ rest, generateAffiliateLink
          (performPartnerSearch (some ⟨"Address Hotels", some 3500, none, true, none⟩) 0 0)
          "Hilton" "2026-01-01" "2026-01-05" "d1" "d2" =
        "https://www.anrdoezrs.net/click-1702763-15042852?url=" ++ rest)) :=
  ⟨rfl, by decide,
    partner_id_inference ⟨"Address Hotels", some 3500, none, true, none⟩ 0 0
      "Hilton" "2026-01-01" "2026-01-05" "d1" "d2" rfl (by decide)⟩



/-- Helper: every branch of `generateDirectLink` is a concatenation headed by
a non-empty URL literal. -/
theorem generateDirectLink_length_pos (result : RawOffer)
    (hotelName checkIn checkOut defCI defCO : String) :
    0 < (generateDirectLink result hotelName checkIn checkOut defCI defCO).length := by
  simp only [generateDirectLink, googleFallbackLink]
  split_ifs <;> (repeat' apply append_length_pos_left) <;> decide

/-- Helper: every branch of `generateAffiliateLink` is either a direct link
or a tracking URL containing the literal separator. -/
theorem generateAffiliateLink_length_pos (pr : RawOffer)
    (hotelName checkIn checkOut defCI defCO : String) :
    0 < (generateAffiliateLink pr hotelName checkIn checkOut defCI defCO).length := by
  simp only [generateAffiliateLink]
  split
  · exact generateDirectLink_length_pos pr hotelName checkIn checkOut defCI defCO
  · split
    · exact generateDirectLink_length_pos pr hotelName checkIn checkOut defCI defCO
    · split_ifs <;>
        first
          | (apply append_length_pos_left
             apply append_length_pos_right
             decide)
          | exact generateDirectLink_length_pos pr hotelName checkIn checkOut defCI defCO

/-- Helper: a partner identifier outside the catalog (or absent) makes
`generateAffiliateLink` fall through to `generateDirectLink`. -/
theorem affiliate_unknown_partner_fallback (offer : RawOffer)
    (hotelName checkIn checkOut defCI defCO : String)
    (h : ∀ pid, offer.partnerId = some pid → lookupPartner pid = none) :
    generateAffiliateLink offer hotelName checkIn checkOut defCI defCO =
      generateDirectLink offer hotelName checkIn checkOut defCI defCO := by
  simp only [generateAffiliateLink]
  split
  · rfl
  · next pid hpid =>
    rw [h pid hpid]


/-- Helper: a site not in the fixed table makes `generateDirectLink` return
the generic Google search URL. -/
theorem direct_unknown_site_fallback (offer : RawOffer)
    (hotelName checkIn checkOut defCI defCO : String)
    (h : jsToLower offer.site ∉ knownDirectSites) :
    generateDirectLink offer hotelName checkIn checkOut defCI defCO =
      googleFallbackLink offer hotelName checkIn checkOut defCI defCO := by
  simp only [knownDirectSites, List.mem_cons, List.not_mem_nil, or_false, not_or] at h
  obtain ⟨h1, h2, h3, h4, h5, h6, h7, h8⟩ := h
  simp only [generateDirectLink]
  rw [if_neg h1, if_neg h2, if_neg h3, if_neg (not_or.mpr ⟨h4, h5⟩), if_neg h6,
    if_neg h7, if_neg h8]

/-- C6: for every input — any site name, any partner identifier (including
ones outside the approved catalog), any hotel name and dates — both link
builders return a non-empty URL; an unknown partner identifier falls back to
the direct branch, and an unknown site name falls back to the generic
constructed search URL. -/
theorem link_composer_total (offer : RawOffer) (hotelName checkIn checkOut defCI defCO : String) :
    0 < (generateAffiliateLink offer hotelName checkIn checkOut defCI defCO).length ∧
    0 < (generateDirectLink offer hotelName checkIn checkOut defCI defCO).length ∧
    ((∀ pid, offer.partnerId = some pid → lookupPartner pid = none) →
      generateAffiliateLink offer hotelName checkIn checkOut defCI defCO =
        generateDirectLink offer hotelName checkIn checkOut defCI defCO) ∧
    (jsToLower offer.site ∉ knownDirectSites →
      generateDirectLink offer hotelName checkIn checkOut defCI defCO =
        googleFallbackLink offer hotelName checkIn checkOut defCI defCO) :=
  ⟨generateAffiliateLink_length_pos offer hotelName checkIn checkOut defCI defCO,
    generateDirectLink_length_pos offer hotelName checkIn checkOut defCI defCO,
    affiliate_unknown_partner_fallback offer hotelName checkIn checkOut defCI defCO,
    direct_unknown_site_fallback offer hotelName checkIn checkOut defCI defCO⟩

/-- C6, witness at an unknown site and an unknown partner identifier. -/
theorem link_composer_total_witness :
    0 < (generateAffiliateLink ⟨"SomeNewSite", none, some "unknown_partner", false, none⟩
        "Hilton Tel Aviv" "2026-01-01" "2026-01-05" "d1" "d2").length ∧
    0 < (generateDirectLink ⟨"SomeNewSite", none, some "unknown_partner", false, none⟩
        "Hilton Tel Aviv" "2026-01-01" "2026-01-05" "d1" "d2").length ∧
    ((∀ pid, (⟨"SomeNewSite", none, some "unknown_partner", false, none⟩ : RawOffer).partnerId
          = some pid → lookupPartner pid = none) →
      generateAffiliateLink ⟨"SomeNewSite", none, some "unknown_partner", false, none⟩
          "Hilton Tel Aviv" "2026-01-01" "2026-01-05" "d1" "d2" =
        generateDirectLink ⟨"SomeNewSite", none, some "unknown_partner", false, none⟩
          "Hilton Tel Aviv" "2026-01-01" "2026-01-05" "d1" "d2") ∧
    (jsToLower (⟨"SomeNewSite", none, some "unknown_partner", false, none⟩ : RawOffer).site
        ∉ knownDirectSites →
      generateDirectLink ⟨"SomeNewSite", none, some "unknown_partner", false, none⟩
          "Hilton Tel Aviv" "2026-01-01" "2026-01-05" "d1" "d2" =
        googleFallbackLink ⟨"SomeNewSite", none, some "unknown_partner", false, none⟩
          "Hilton Tel Aviv" "2026-01-01" "2026-01-05" "d1" "d2") :=
  link_composer_total ⟨"SomeNewSite", none, some "unknown_partner", false, none⟩
    "Hilton Tel Aviv" "2026-01-01" "2026-01-05" "d1" "d2"

end PriceDrop
